import Mathlib

/-!
# Verification of the Customer REST service (`service/routes.py`)

Shallow embedding of the Flask route handlers in `src/service/routes.py`.
The HTTP layer is modelled explicitly: a request carries headers (an
association list), an optional parsed JSON body, and query arguments; the
backing relational store is an explicit `DB` state threaded through every
handler.  The `Customer` persistence model (`service/models.py`) is not part
of `src/`; its operations are modelled from the spec (§2 Customer Entity,
§3 Data Model) and each such definition is marked `Modelled from the spec:`.
-/

/-- Modelled from the spec: a Customer entity (spec §3): id (unique,
server-assigned), name, email, phone_number, address. -/
structure Customer where
  id : Nat
  name : String
  email : String
  phone_number : String
  address : String
deriving DecidableEq, Repr

/-- Modelled from the spec: the serialized (JSON) form of a Customer, as
produced by `Customer.serialize` in `service/models.py` (absent from src/). -/
structure SerializedCustomer where
  id : Nat
  name : String
  email : String
  phone_number : String
  address : String
deriving DecidableEq, Repr

/-- Modelled from the spec: `serialize` turns an entity into its JSON form. -/
def Customer.serialize (c : Customer) : SerializedCustomer :=
  ⟨c.id, c.name, c.email, c.phone_number, c.address⟩

/-- Modelled from the spec: the validation error raised by the model layer
(`DataValidationError` in `service/models.py`, imported by routes.py). -/
structure DataValidationError where
  msg : String
deriving DecidableEq, Repr

/-- A parsed JSON request body for a customer: each expected field may be
present or missing.  This is what `request.get_json()` hands to
`deserialize`. -/
structure CustomerBody where
  name : Option String
  email : Option String
  phone_number : Option String
  address : Option String
deriving DecidableEq, Repr

/-- Modelled from the spec: `deserialize` (spec §3: "deserialize must
validate required fields and raise a validation error on malformed input";
"id immutable after creation", so the entity id is never taken from the
body).  In the Python code `customer.deserialize(data)` mutates `customer`
in place; here it returns the updated entity or the validation error. -/
def Customer.deserialize (c : Customer) (data : CustomerBody) :
    Except DataValidationError Customer :=
  match data.name, data.email, data.phone_number, data.address with
  | some n, some e, some p, some a =>
      .ok { c with name := n, email := e, phone_number := p, address := a }
  | _, _, _, _ => .error ⟨"Invalid Customer: missing required field"⟩

/-- Modelled from the spec: the relational store backing `Customer`
(spec §1: "backed by a relational data store").  `store` is the table of
persisted customers, `nextId` the next server-assigned primary key. -/
structure DB where
  store : List Customer
  nextId : Nat
deriving DecidableEq, Repr

/-- Modelled from the spec: `Customer.find(id)` looks a customer up by
primary key.  The id may be any integer (the DELETE route parses a raw
string with `int(...)`); stored ids are natural numbers. -/
def Customer.find (db : DB) (i : Int) : Option Customer :=
  db.store.find? (fun c => (c.id : Int) == i)

/-- Modelled from the spec: `Customer.all()` returns every stored customer. -/
def Customer.all (db : DB) : List Customer :=
  db.store

/-- Modelled from the spec: `Customer.find_by_name` returns the customers
whose name matches. -/
def Customer.find_by_name (db : DB) (n : String) : List Customer :=
  db.store.filter (fun c => c.name == n)

/-- Modelled from the spec: `Customer.find_by_email` returns the customers
whose email matches. -/
def Customer.find_by_email (db : DB) (e : String) : List Customer :=
  db.store.filter (fun c => c.email == e)

/-- Modelled from the spec: `Customer.find_by_phone_number` returns the
customers whose phone_number matches. -/
def Customer.find_by_phone_number (db : DB) (p : String) : List Customer :=
  db.store.filter (fun c => c.phone_number == p)

/-- Modelled from the spec: `Customer.find_by_address` returns the customers
whose address matches. -/
def Customer.find_by_address (db : DB) (a : String) : List Customer :=
  db.store.filter (fun c => c.address == a)

/-- Modelled from the spec: `customer.create()` persists a new entity,
assigning it the next server-generated id (spec §3: "id (unique,
server-assigned)").  Returns the entity as persisted and the new store. -/
def Customer.create (db : DB) (c : Customer) : Customer × DB :=
  let saved := { c with id := db.nextId }
  (saved, ⟨db.store ++ [saved], db.nextId + 1⟩)

/-- Modelled from the spec: `customer.update()` writes the entity back over
the stored row with the same primary key. -/
def Customer.update (db : DB) (c : Customer) : DB :=
  ⟨db.store.map (fun x => if x.id == c.id then c else x), db.nextId⟩

/-- Modelled from the spec: `customer.delete()` removes the entity's row
from the store. -/
def Customer.delete (db : DB) (c : Customer) : DB :=
  ⟨db.store.filter (fun x => x.id != c.id), db.nextId⟩

/-- Request headers, as an association list; `headers.lookup` models
`request.headers[...]` / the `in` membership test of routes.py. -/
abbrev Headers := List (String × String)

/-- The bodies a route handler can answer with: `jsonify` of an entity, of a
list, of the index metadata, an error message (from `abort(status, msg)` or
a `DataValidationError`), or the empty `{}` body of DELETE. -/
inductive RespBody where
  | empty : RespBody
  | message (msg : String) : RespBody
  | customer (c : SerializedCustomer) : RespBody
  | customers (cs : List SerializedCustomer) : RespBody
  | metadata : RespBody
deriving DecidableEq, Repr

/-- An HTTP response: status code, JSON body, optional Location header
(routes.py only ever sets Location on the 201 of POST). -/
structure Response where
  status : Nat
  body : RespBody
  location : Option String
deriving DecidableEq, Repr

/-- `url_for("get_customers", customer_id=i)`: the URL of GET /customers/{i}
(modelled host-relative; routes.py asks Flask for the external form). -/
def location_url (i : Nat) : String :=
  "/customers/" ++ toString i

/-- `check_content_type` of routes.py lines 189-205: aborts with 415 when
the Content-Type header is missing or differs from `content_type`, returns
normally (here `none`) when it matches exactly. -/
def check_content_type (headers : Headers) (content_type : String) : Option Nat :=
  match headers.lookup "Content-Type" with
  | none => some 415
  | some ct => if ct == content_type then none else some 415

/-- `Customer()` in routes.py line 82: a fresh in-memory entity before
`deserialize` fills its fields and `create` assigns its id. -/
def emptyCustomer : Customer :=
  ⟨0, "", "", "", ""⟩

/-- `index` (routes.py lines 33-65): GET / returns the service metadata with
200 and touches no state. -/
def index (db : DB) : Response × DB :=
  (⟨200, .metadata, none⟩, db)

/-- `create_customers` (routes.py lines 73-98): POST /customers.  Checks the
content type (415), deserializes the body into a new Customer (validation
error surfaces as a 400 client error), persists it, and answers 201 with the
serialized entity and a Location header for the new id. -/
def create_customers (headers : Headers) (data : CustomerBody) (db : DB) :
    Response × DB :=
  match check_content_type headers "application/json" with
  | some s => (⟨s, .message "Content-Type must be application/json", none⟩, db)
  | none =>
    match Customer.deserialize emptyCustomer data with
    | .error e => (⟨400, .message e.msg, none⟩, db)
    | .ok c =>
      let r := Customer.create db c
      (⟨201, .customer r.1.serialize, some (location_url r.1.id)⟩, r.2)

/-- The filter dispatch of `list_customers` (routes.py lines 113-128): the
Python truthiness test `if name:` is false exactly when the argument is
absent (`None`) or the empty string. -/
def truthy : Option String → Bool
  | none => false
  | some s => s != ""

/-- The query selected by `list_customers` (routes.py lines 106-128):
name, then email, then phone_number, then address, first truthy value wins;
otherwise all customers. -/
def list_dispatch (db : DB) (name email phone_number address : Option String) :
    List Customer :=
  if truthy name then Customer.find_by_name db (name.getD "")
  else if truthy email then Customer.find_by_email db (email.getD "")
  else if truthy phone_number then Customer.find_by_phone_number db (phone_number.getD "")
  else if truthy address then Customer.find_by_address db (address.getD "")
  else Customer.all db

/-- `list_customers` (routes.py lines 101-132): GET /customers.  Reads the
four optional query arguments (`request.args.get` yields the first value or
`None`), dispatches on them, and answers 200 with the serialized list. -/
def list_customers (args : List (String × String)) (db : DB) : Response × DB :=
  let customers := list_dispatch db (args.lookup "name") (args.lookup "email")
      (args.lookup "phone_number") (args.lookup "address")
  (⟨200, .customers (customers.map Customer.serialize), none⟩, db)

/-- `get_customers` (routes.py lines 135-153): GET /customers/{id} with the
`int:` converter, so the id is a natural number.  404 with a descriptive
message when absent, else 200 with the serialized entity. -/
def get_customers (customer_id : Nat) (db : DB) : Response × DB :=
  match Customer.find db customer_id with
  | none =>
      (⟨404, .message s!"Customer with id {customer_id} was not found.", none⟩, db)
  | some c => (⟨200, .customer c.serialize, none⟩, db)

/-- `update_customers` (routes.py lines 164-186): PUT /customers/{id}.
Checks the content type (415), 404 when the id is absent, otherwise
deserializes the body into the found entity (validation error surfaces as a
400 client error) and writes it back, answering 200 with the updated
serialized entity. -/
def update_customers (customer_id : Nat) (headers : Headers)
    (data : CustomerBody) (db : DB) : Response × DB :=
  match check_content_type headers "application/json" with
  | some s => (⟨s, .message "Content-Type must be application/json", none⟩, db)
  | none =>
    match Customer.find db customer_id with
    | none =>
        (⟨404, .message s!"Customer with id {customer_id} was not found.", none⟩, db)
    | some c =>
      match Customer.deserialize c data with
      | .error e => (⟨400, .message e.msg, none⟩, db)
      | .ok c2 => (⟨200, .customer c2.serialize, none⟩, Customer.update db c2)

/-- The value of a decimal digit string, most significant digit first. -/
def digitsVal (l : List Char) : Nat :=
  l.foldl (fun n c => n * 10 + (c.toNat - 48)) 0

/-- The Python built-in `int(...)` applied to the path string in routes.py
line 223: an optional sign followed by one or more decimal digits parses to
an integer; anything else raises `ValueError` (`none` here).  Python also
tolerates surrounding whitespace and underscores between digits; path
segments never carry whitespace and the claim only concerns numeric versus
non-numeric ids. -/
def pyInt? (s : String) : Option Int :=
  match s.data with
  | [] => none
  | '-' :: rest =>
    if rest ≠ [] ∧ rest.all Char.isDigit then some (-(digitsVal rest : Int))
    else none
  | '+' :: rest =>
    if rest ≠ [] ∧ rest.all Char.isDigit then some ((digitsVal rest : Int))
    else none
  | l =>
    if l.all Char.isDigit then some ((digitsVal l : Int)) else none

/-- `delete_customer` (routes.py lines 213-238): DELETE /customers/{id} with
the default string converter.  `int(customer_id)` raising `ValueError` is a
`DataValidationError` (`.error` here); a found customer is deleted with 204,
an absent id aborts with 404. -/
def delete_customer (customer_id : String) (db : DB) :
    Except DataValidationError (Response × DB) :=
  match pyInt? customer_id with
  | none => .error ⟨"Bad ID format"⟩
  | some i =>
    match Customer.find db i with
    | some c => .ok (⟨204, .empty, none⟩, Customer.delete db c)
    | none =>
        .ok (⟨404, .message s!"Customer with id {i} was not found.", none⟩, db)

/-- A concrete sample store: one customer with id 1, next id 2. -/
def db0 : DB :=
  ⟨[⟨1, "Alice", "alice@x.com", "555", "Mars"⟩], 2⟩

/-- A concrete well-formed request body. -/
def body0 : CustomerBody :=
  ⟨some "Bob", some "bob@x.com", some "123", some "Venus"⟩

/-- A concrete malformed request body: the required name field is missing. -/
def badBody0 : CustomerBody :=
  ⟨none, some "bob@x.com", some "123", some "Venus"⟩

/-- Headers carrying the JSON content type. -/
def jsonHeaders : Headers :=
  [("Content-Type", "application/json")]

/-- The deserialize step of the model layer never changes the entity's id
(spec §3: id immutable after creation). -/
theorem Customer.deserialize_id {c c2 : Customer} {data : CustomerBody}
    (h : Customer.deserialize c data = .ok c2) : c2.id = c.id := by
  rcases data with ⟨n, e, p, a⟩
  cases n <;> cases e <;> cases p <;> cases a <;>
    simp [Customer.deserialize] at h
  subst h
  rfl

/-- Looking a fresh id up in a store extended with a row carrying that id
finds exactly the new row. -/
theorem find?_append_fresh (l : List Customer) (c : Customer)
    (hfresh : ∀ x ∈ l, x.id ≠ c.id) :
    (l ++ [c]).find? (fun x => (x.id : Int) == (c.id : Int)) = some c := by
  rw [List.find?_append]
  have h1 : l.find? (fun x => (x.id : Int) == (c.id : Int)) = none := by
    rw [List.find?_eq_none]
    intro x hx hcontra
    have hxi : (x.id : Int) = (c.id : Int) := by simpa using hcontra
    exact hfresh x hx (by exact_mod_cast hxi)
  rw [h1]
  simp [List.find?]

/-- Writing an entity back over the row with its primary key makes a
subsequent lookup of that key return the written entity. -/
theorem find?_map_update (l : List Customer) (i : Int) (c c2 : Customer)
    (hc : l.find? (fun x => (x.id : Int) == i) = some c)
    (hid : c2.id = c.id) :
    (l.map (fun x => if x.id == c2.id then c2 else x)).find?
      (fun x => (x.id : Int) == i) = some c2 := by
  have hci : (c.id : Int) = i := by simpa using List.find?_some hc
  induction l with
  | nil => simp at hc
  | cons x xs ih =>
    by_cases hx : ((x.id : Int) == i) = true
    · rw [List.find?_cons_of_pos (p := fun y : Customer => (y.id : Int) == i) _ hx] at hc
      have hxc : x = c := Option.some.inj hc
      subst hxc
      have hcond : (x.id == c2.id) = true := by simp [hid]
      have hpred : ((c2.id : Int) == i) = true := by simp [hid, hci]
      rw [List.map_cons, if_pos hcond]
      exact List.find?_cons_of_pos (p := fun y : Customer => (y.id : Int) == i) _ hpred
    · rw [List.find?_cons_of_neg (p := fun y : Customer => (y.id : Int) == i) _ hx] at hc
      have hcond : ¬ ((x.id == c2.id) = true) := by
        intro hcontra
        apply hx
        have hxeq : x.id = c2.id := by simpa using hcontra
        simp [hxeq, hid, hci]
      rw [List.map_cons, if_neg hcond]
      rw [List.find?_cons_of_neg (p := fun y : Customer => (y.id : Int) == i) _ hx]
      exact ih hc

/-- Deleting the row with a primary key makes a subsequent lookup of that
key fail. -/
theorem find?_filter_delete (l : List Customer) (i : Int) (c : Customer)
    (hci : (c.id : Int) = i) :
    (l.filter (fun x => x.id != c.id)).find? (fun x => (x.id : Int) == i) = none := by
  rw [List.find?_eq_none]
  intro x hx hcontra
  rw [List.mem_filter] at hx
  have hxi : (x.id : Int) = i := by simpa using hcontra
  have hxc : x.id = c.id := by exact_mod_cast hxi.trans hci.symm
  simp [hxc] at hx

/-- Writing an entity back over the row with its primary key leaves the
list of stored ids unchanged. -/
theorem map_id_update (l : List Customer) (c2 : Customer) :
    (l.map (fun x => if x.id == c2.id then c2 else x)).map (fun x => x.id)
      = l.map (fun x => x.id) := by
  rw [List.map_map]
  apply List.map_congr_left
  intro x _
  by_cases h : x.id = c2.id
  · simp [h]
  · simp [h]

/-- C1: POST /customers with JSON content type and a well-formed body
answers 201, carries a Location header naming GET /customers/{id} for the
newly assigned id, and a GET of that id against the resulting store answers
200 with the same serialized customer data. -/
theorem post_create_then_get_roundtrip (headers : Headers) (data : CustomerBody)
    (db : DB) (c : Customer)
    (hct : headers.lookup "Content-Type" = some "application/json")
    (hok : Customer.deserialize emptyCustomer data = .ok c)
    (hfresh : ∀ x ∈ db.store, x.id ≠ db.nextId) :
    (create_customers headers data db).1.status = 201 ∧
    (create_customers headers data db).1.location = some (location_url db.nextId) ∧
    (get_customers db.nextId (create_customers headers data db).2).1.status = 200 ∧
    (get_customers db.nextId (create_customers headers data db).2).1.body
      = (create_customers headers data db).1.body := by
  have hcheck : check_content_type headers "application/json" = none := by
    simp [check_content_type, hct]
  have hcc : create_customers headers data db
      = (⟨201, .customer ({c with id := db.nextId}).serialize,
          some (location_url db.nextId)⟩,
         ⟨db.store ++ [{c with id := db.nextId}], db.nextId + 1⟩) := by
    simp [create_customers, hcheck, hok, Customer.create]
  have hfind : Customer.find ⟨db.store ++ [{c with id := db.nextId}], db.nextId + 1⟩
      (db.nextId : Int) = some {c with id := db.nextId} := by
    unfold Customer.find
    have hfr : ∀ x ∈ db.store, x.id ≠ ({c with id := db.nextId} : Customer).id := by
      simpa using hfresh
    simpa using find?_append_fresh db.store {c with id := db.nextId} hfr
  rw [hcc]
  refine ⟨rfl, rfl, ?_, ?_⟩ <;> simp [get_customers, hfind]

/-- C1 witness: a concrete POST against the sample store. -/
theorem post_create_then_get_roundtrip_witness :
    jsonHeaders.lookup "Content-Type" = some "application/json" ∧
    Customer.deserialize emptyCustomer body0
      = .ok ⟨0, "Bob", "bob@x.com", "123", "Venus"⟩ ∧
    (∀ x ∈ db0.store, x.id ≠ db0.nextId) ∧
    ((create_customers jsonHeaders body0 db0).1.status = 201 ∧
     (create_customers jsonHeaders body0 db0).1.location
       = some (location_url db0.nextId) ∧
     (get_customers db0.nextId (create_customers jsonHeaders body0 db0).2).1.status = 200 ∧
     (get_customers db0.nextId (create_customers jsonHeaders body0 db0).2).1.body
       = (create_customers jsonHeaders body0 db0).1.body) :=
  ⟨by decide, rfl, by decide,
   post_create_then_get_roundtrip jsonHeaders body0 db0
     ⟨0, "Bob", "bob@x.com", "123", "Venus"⟩ (by decide) rfl (by decide)⟩

/-- C2: GET /customers always answers 200, and its filters are mutually
exclusive with first-match-wins in exactly the order name, email,
phone_number, address: a given (truthy) name selects find_by_name alone;
otherwise a given email selects find_by_email; otherwise phone_number;
otherwise address; otherwise all customers are returned.  Filtering by a
name returns only customers matching that name. -/
theorem list_customers_filter_priority (db : DB) (args : List (String × String)) :
    (list_customers args db).1.status = 200 ∧
    (∀ n, args.lookup "name" = some n → n ≠ "" →
       (list_customers args db).1.body
         = .customers ((Customer.find_by_name db n).map Customer.serialize) ∧
       ∀ c ∈ Customer.find_by_name db n, c.name = n) ∧
    (∀ e, truthy (args.lookup "name") = false →
       args.lookup "email" = some e → e ≠ "" →
       (list_customers args db).1.body
         = .customers ((Customer.find_by_email db e).map Customer.serialize)) ∧
    (∀ p, truthy (args.lookup "name") = false →
       truthy (args.lookup "email") = false →
       args.lookup "phone_number" = some p → p ≠ "" →
       (list_customers args db).1.body
         = .customers ((Customer.find_by_phone_number db p).map Customer.serialize)) ∧
    (∀ a, truthy (args.lookup "name") = false →
       truthy (args.lookup "email") = false →
       truthy (args.lookup "phone_number") = false →
       args.lookup "address" = some a → a ≠ "" →
       (list_customers args db).1.body
         = .customers ((Customer.find_by_address db a).map Customer.serialize)) ∧
    (truthy (args.lookup "name") = false →
     truthy (args.lookup "email") = false →
     truthy (args.lookup "phone_number") = false →
     truthy (args.lookup "address") = false →
       (list_customers args db).1.body
         = .customers ((Customer.all db).map Customer.serialize)) := by
  refine ⟨rfl, ?_, ?_, ?_, ?_, ?_⟩
  · intro n hn hne
    have ht : truthy (some n) = true := by simp [truthy, hne]
    constructor
    · simp [list_customers, list_dispatch, hn, ht]
    · intro c hc
      unfold Customer.find_by_name at hc
      rw [List.mem_filter] at hc
      simpa using hc.2
  · intro e hnf he hene
    have ht : truthy (some e) = true := by simp [truthy, hene]
    simp [list_customers, list_dispatch, hnf, he, ht]
  · intro p hnf hef hp hpne
    have ht : truthy (some p) = true := by simp [truthy, hpne]
    simp [list_customers, list_dispatch, hnf, hef, hp, ht]
  · intro a hnf hef hpf ha hane
    have ht : truthy (some a) = true := by simp [truthy, hane]
    simp [list_customers, list_dispatch, hnf, hef, hpf, ha, ht]
  · intro hnf hef hpf haf
    simp [list_customers, list_dispatch, hnf, hef, hpf, haf]

/-- C2 witness: against the sample store, name Alice wins over every other
filter, email is selected when name is absent, and no filters at all
return all customers. -/
theorem list_customers_filter_priority_witness :
    (("Alice" : String) ≠ "" ∧
     ((list_customers [("name", "Alice"), ("email", "e"), ("phone_number", "p"),
         ("address", "a")] db0).1.body
        = .customers ((Customer.find_by_name db0 "Alice").map Customer.serialize) ∧
      ∀ c ∈ Customer.find_by_name db0 "Alice", c.name = "Alice")) ∧
    (truthy ([("email", "alice@x.com"), ("phone_number", "p"),
        ("address", "a")].lookup "name") = false ∧
     ("alice@x.com" : String) ≠ "" ∧
     (list_customers [("email", "alice@x.com"), ("phone_number", "p"),
        ("address", "a")] db0).1.body
       = .customers ((Customer.find_by_email db0 "alice@x.com").map Customer.serialize)) ∧
    ((list_customers ([] : List (String × String)) db0).1.body
       = .customers ((Customer.all db0).map Customer.serialize)) :=
  ⟨⟨by decide,
    (list_customers_filter_priority db0 [("name", "Alice"), ("email", "e"),
       ("phone_number", "p"), ("address", "a")]).2.1 "Alice" rfl (by decide)⟩,
   ⟨by decide, by decide,
    (list_customers_filter_priority db0 [("email", "alice@x.com"),
       ("phone_number", "p"), ("address", "a")]).2.2.1 "alice@x.com"
      (by decide) rfl (by decide)⟩,
   (list_customers_filter_priority db0 ([] : List (String × String))).2.2.2.2.2
     (by decide) (by decide) (by decide) (by decide)⟩

/-- C3: PUT /customers/{id} with JSON content type answers 404 and leaves
the store unchanged when the id is absent; when present, the entity's
fields are replaced by the body's values, the response is 200 with the
updated serialized entity, and the store now holds the updated entity under
that id. -/
theorem put_update_customers_spec (i : Nat) (headers : Headers)
    (data : CustomerBody) (db : DB)
    (hct : headers.lookup "Content-Type" = some "application/json") :
    (Customer.find db i = none →
       update_customers i headers data db
         = (⟨404, .message s!"Customer with id {i} was not found.", none⟩, db)) ∧
    (∀ c c2, Customer.find db i = some c →
       Customer.deserialize c data = .ok c2 →
       (update_customers i headers data db).1.status = 200 ∧
       (update_customers i headers data db).1.body = .customer c2.serialize ∧
       Customer.find (update_customers i headers data db).2 i = some c2) := by
  have hcheck : check_content_type headers "application/json" = none := by
    simp [check_content_type, hct]
  constructor
  · intro hnone
    simp [update_customers, hcheck, hnone]
  · intro c c2 hfind hok
    have hupd : update_customers i headers data db
        = (⟨200, .customer c2.serialize, none⟩, Customer.update db c2) := by
      simp [update_customers, hcheck, hfind, hok]
    rw [hupd]
    refine ⟨rfl, rfl, ?_⟩
    unfold Customer.find Customer.update
    exact find?_map_update db.store i c c2
      (by simpa [Customer.find] using hfind) (Customer.deserialize_id hok)

/-- C3 witness: a concrete PUT of customer 1 in the sample store. -/
theorem put_update_customers_spec_witness :
    jsonHeaders.lookup "Content-Type" = some "application/json" ∧
    Customer.find db0 (1 : Nat) = some ⟨1, "Alice", "alice@x.com", "555", "Mars"⟩ ∧
    Customer.deserialize ⟨1, "Alice", "alice@x.com", "555", "Mars"⟩ body0
      = .ok ⟨1, "Bob", "bob@x.com", "123", "Venus"⟩ ∧
    ((update_customers 1 jsonHeaders body0 db0).1.status = 200 ∧
     (update_customers 1 jsonHeaders body0 db0).1.body
       = .customer (Customer.serialize ⟨1, "Bob", "bob@x.com", "123", "Venus"⟩) ∧
     Customer.find (update_customers 1 jsonHeaders body0 db0).2 (1 : Nat)
       = some ⟨1, "Bob", "bob@x.com", "123", "Venus"⟩) :=
  ⟨by decide, by decide, rfl,
   (put_update_customers_spec 1 jsonHeaders body0 db0 (by decide)).2
     ⟨1, "Alice", "alice@x.com", "555", "Mars"⟩
     ⟨1, "Bob", "bob@x.com", "123", "Venus"⟩ (by decide) rfl⟩

/-- C4: DELETE /customers/{id} parses the id with int(); a non-numeric id
raises the validation error, a present id is deleted (no longer findable)
with 204, an absent id answers 404 with the store unchanged. -/
theorem delete_customer_spec (s : String) (db : DB) :
    (pyInt? s = none → delete_customer s db = .error ⟨"Bad ID format"⟩) ∧
    (∀ i c, pyInt? s = some i → Customer.find db i = some c →
       delete_customer s db = .ok (⟨204, .empty, none⟩, Customer.delete db c) ∧
       Customer.find (Customer.delete db c) i = none) ∧
    (∀ i, pyInt? s = some i → Customer.find db i = none →
       delete_customer s db
         = .ok (⟨404, .message s!"Customer with id {i} was not found.", none⟩, db)) := by
  refine ⟨?_, ?_, ?_⟩
  · intro h
    simp [delete_customer, h]
  · intro i c hs hfind
    refine ⟨by simp [delete_customer, hs, hfind], ?_⟩
    have hci : (c.id : Int) = i := by
      have := List.find?_some (p := fun y : Customer => (y.id : Int) == i)
        (by simpa [Customer.find] using hfind)
      simpa using this
    unfold Customer.find Customer.delete
    exact find?_filter_delete db.store i c hci
  · intro i hs hfind
    simp [delete_customer, hs, hfind]

/-- C4 witness: deleting customer 1 from the sample store, and a
non-numeric id raising the validation error. -/
theorem delete_customer_spec_witness :
    pyInt? "abc" = none ∧
    delete_customer "abc" db0 = .error ⟨"Bad ID format"⟩ ∧
    pyInt? "1" = some 1 ∧
    Customer.find db0 (1 : Int) = some ⟨1, "Alice", "alice@x.com", "555", "Mars"⟩ ∧
    (delete_customer "1" db0
       = .ok (⟨204, .empty, none⟩,
              Customer.delete db0 ⟨1, "Alice", "alice@x.com", "555", "Mars"⟩) ∧
     Customer.find (Customer.delete db0 ⟨1, "Alice", "alice@x.com", "555", "Mars"⟩)
       (1 : Int) = none) :=
  ⟨by decide, (delete_customer_spec "abc" db0).1 (by decide), by decide, by decide,
   (delete_customer_spec "1" db0).2.1 1 ⟨1, "Alice", "alice@x.com", "555", "Mars"⟩
     (by decide) (by decide)⟩

/-- C5: GET /customers/{id} answers 200 with the serialized entity when the
id is present, and 404 with a descriptive message when absent; the store is
returned unchanged in both cases. -/
theorem get_customers_spec (i : Nat) (db : DB) :
    (∀ c, Customer.find db i = some c →
       get_customers i db = (⟨200, .customer c.serialize, none⟩, db)) ∧
    (Customer.find db i = none →
       get_customers i db
         = (⟨404, .message s!"Customer with id {i} was not found.", none⟩, db)) := by
  constructor
  · intro c h
    simp [get_customers, h]
  · intro h
    simp [get_customers, h]

/-- C5 witness: GET of the present id 1 and of the absent id 7. -/
theorem get_customers_spec_witness :
    Customer.find db0 (1 : Nat) = some ⟨1, "Alice", "alice@x.com", "555", "Mars"⟩ ∧
    get_customers 1 db0
      = (⟨200, .customer (Customer.serialize ⟨1, "Alice", "alice@x.com", "555", "Mars"⟩),
          none⟩, db0) ∧
    Customer.find db0 (7 : Nat) = none ∧
    get_customers 7 db0
      = (⟨404, .message "Customer with id 7 was not found.", none⟩, db0) :=
  ⟨by decide,
   (get_customers_spec 1 db0).1 ⟨1, "Alice", "alice@x.com", "555", "Mars"⟩ (by decide),
   by decide,
   (get_customers_spec 7 db0).2 (by decide)⟩

/-- C6: check_content_type aborts with 415 exactly when the Content-Type
header is missing or differs from application/json, and proceeds (returns
normally) exactly when the header matches. -/
theorem check_content_type_spec (headers : Headers) :
    (check_content_type headers "application/json" = some 415 ↔
       (headers.lookup "Content-Type" = none ∨
        ∃ v, headers.lookup "Content-Type" = some v ∧ v ≠ "application/json")) ∧
    (check_content_type headers "application/json" = none ↔
       headers.lookup "Content-Type" = some "application/json") := by
  cases h : headers.lookup "Content-Type" with
  | none => simp [check_content_type, h]
  | some v =>
    by_cases hv : v = "application/json"
    · simp [check_content_type, h, hv]
    · simp [check_content_type, h, hv]

/-- C7: the id of an existing customer is immutable under PUT: deserializing
the body into the found entity keeps its id, and the list of stored ids is
unchanged by the whole update request. -/
theorem put_id_immutable (i : Nat) (headers : Headers) (data : CustomerBody)
    (db : DB) (c c2 : Customer)
    (hfind : Customer.find db i = some c)
    (hok : Customer.deserialize c data = .ok c2) :
    c2.id = c.id ∧
    (update_customers i headers data db).2.store.map (fun x => x.id)
      = db.store.map (fun x => x.id) := by
  refine ⟨Customer.deserialize_id hok, ?_⟩
  cases hcheck : check_content_type headers "application/json" with
  | some s => simp [update_customers, hcheck]
  | none =>
    simp only [update_customers, hcheck, hfind, hok, Customer.update]
    exact map_id_update db.store c2

/-- C7 witness: updating customer 1 in the sample store keeps id 1 and the
stored ids. -/
theorem put_id_immutable_witness :
    Customer.find db0 (1 : Nat) = some ⟨1, "Alice", "alice@x.com", "555", "Mars"⟩ ∧
    Customer.deserialize ⟨1, "Alice", "alice@x.com", "555", "Mars"⟩ body0
      = .ok ⟨1, "Bob", "bob@x.com", "123", "Venus"⟩ ∧
    ((⟨1, "Bob", "bob@x.com", "123", "Venus"⟩ : Customer).id
       = (⟨1, "Alice", "alice@x.com", "555", "Mars"⟩ : Customer).id ∧
     (update_customers 1 jsonHeaders body0 db0).2.store.map (fun x => x.id)
       = db0.store.map (fun x => x.id)) :=
  ⟨by decide, rfl,
   put_id_immutable 1 jsonHeaders body0 db0
     ⟨1, "Alice", "alice@x.com", "555", "Mars"⟩
     ⟨1, "Bob", "bob@x.com", "123", "Venus"⟩ (by decide) rfl⟩

/-- C8: read operations never mutate state: GET / (index), GET /customers
(with any query arguments), and GET /customers/{id} all return the store
they were given. -/
theorem reads_never_mutate (db : DB) (args : List (String × String)) (i : Nat) :
    (index db).2 = db ∧
    (list_customers args db).2 = db ∧
    (get_customers i db).2 = db := by
  refine ⟨rfl, rfl, ?_⟩
  cases h : Customer.find db i with
  | none => simp [get_customers, h]
  | some c => simp [get_customers, h]

/-- C9: a filter query parameter that is present with an empty-string value
is treated as absent: list_customers is exactly the 200 serialization of
the dispatch on the four looked-up arguments, and in that dispatch an empty
value falls through to the next filter (or to all customers) in every
position. -/
theorem empty_filter_treated_as_absent (db : DB) (args : List (String × String))
    (n e p a : Option String) :
    (list_customers args db
       = (⟨200, .customers ((list_dispatch db (args.lookup "name")
             (args.lookup "email") (args.lookup "phone_number")
             (args.lookup "address")).map Customer.serialize), none⟩, db)) ∧
    list_dispatch db (some "") e p a = list_dispatch db none e p a ∧
    list_dispatch db n (some "") p a = list_dispatch db n none p a ∧
    list_dispatch db n e (some "") a = list_dispatch db n e none a ∧
    list_dispatch db n e p (some "") = list_dispatch db n e p none := by
  refine ⟨rfl, ?_, ?_, ?_, ?_⟩ <;>
    simp [list_dispatch, truthy]

/-- C10: validation failure is atomic: when the body fails deserialization,
POST leaves the store unchanged, and PUT on an existing customer leaves the
store (hence the targeted customer's persisted fields) unchanged. -/
theorem validation_failure_atomic (headers : Headers) (data : CustomerBody)
    (db : DB) (i : Nat) (err : DataValidationError) :
    (Customer.deserialize emptyCustomer data = .error err →
       (create_customers headers data db).2 = db) ∧
    (∀ c, Customer.find db i = some c →
       Customer.deserialize c data = .error err →
       (update_customers i headers data db).2 = db) := by
  constructor
  · intro h
    cases hcheck : check_content_type headers "application/json" with
    | some s => simp [create_customers, hcheck]
    | none => simp [create_customers, hcheck, h]
  · intro c hfind h
    cases hcheck : check_content_type headers "application/json" with
    | some s => simp [update_customers, hcheck]
    | none => simp [update_customers, hcheck, hfind, h]

/-- C10 witness: a body missing the required name field changes nothing,
neither through POST nor through PUT of customer 1. -/
theorem validation_failure_atomic_witness :
    Customer.deserialize emptyCustomer badBody0
      = .error ⟨"Invalid Customer: missing required field"⟩ ∧
    (create_customers jsonHeaders badBody0 db0).2 = db0 ∧
    Customer.find db0 (1 : Nat) = some ⟨1, "Alice", "alice@x.com", "555", "Mars"⟩ ∧
    Customer.deserialize ⟨1, "Alice", "alice@x.com", "555", "Mars"⟩ badBody0
      = .error ⟨"Invalid Customer: missing required field"⟩ ∧
    (update_customers 1 jsonHeaders badBody0 db0).2 = db0 :=
  ⟨rfl,
   (validation_failure_atomic jsonHeaders badBody0 db0 1
      ⟨"Invalid Customer: missing required field"⟩).1 rfl,
   by decide, rfl,
   (validation_failure_atomic jsonHeaders badBody0 db0 1
      ⟨"Invalid Customer: missing required field"⟩).2
     ⟨1, "Alice", "alice@x.com", "555", "Mars"⟩ (by decide) rfl⟩
